import Mathlib

/-!
Verification of the anomaly detection and alert-dispatch pipeline of the
API Sentinel backend: a shallow embedding of the detection engine
(`core/anomaly_detector.py`), the alert dispatcher (`core/alert_system.py`)
and the alert sweep of the scheduler (`jobs/tasks.py`), together with
theorems settling the specification's claims about them.

Conventions of the embedding:
* timestamps (`datetime`) are integers (seconds); `datetime.utcnow()` becomes
  an explicit `now : Int` argument at each call site of the source;
* database tables are lists of rows; SQL filters become `List.filter`,
  `GROUP BY` becomes grouping over the deduplicated list of keys;
* `httpx` POSTs are an oracle `net : String → Option Int` mapping a URL to
  the response status code, `none` standing for a raised network exception;
* the float literals `0.2` and `0.5` of the error-spike scanner are modelled
  as the exact rationals `1/5` and `1/2`.
-/

namespace ApiSentinel

/-- `core/models.py` `AnomalySeverity` (string enum low/medium/high/critical). -/
inductive AnomalySeverity
  | low
  | medium
  | high
  | critical
deriving DecidableEq, Repr

/-- `core/models.py` `AnomalyType` (string enum). -/
inductive AnomalyType
  | new_endpoint
  | rate_limit
  | error_spike
  | suspicious_location
  | unusual_pattern
deriving DecidableEq, Repr

/-- `core/models.py` `ApiRequest`: one captured request event.  Only the
columns the detection engine reads are modelled.  `ip` is the textual INET
value, `created_at` the insertion timestamp. -/
structure ApiRequest where
  project_id : Nat
  method : String
  path : String
  status_code : Int
  ip : String
  country_code : String
  created_at : Int
deriving DecidableEq, Repr

/-- An `Anomaly` row as built by the detection engine (`core/models.py`
`Anomaly`); the random uuid and the server-side `created_at` default are
omitted, `resolved`/`processed` start at their column defaults (false). -/
structure Anomaly where
  project_id : Nat
  type : AnomalyType
  endpoint_path : Option String
  ip : Option String
  message : String
  severity : AnomalySeverity
deriving DecidableEq, Repr

/-! ## Detection engine (`core/anomaly_detector.py`) -/

/-- The endpoint key `f"{request.method}:{request.path}"` built by
`_detect_new_endpoints`. -/
def endpointKey (method path : String) : String :=
  method ++ ":" ++ path

/-- The anomaly `_detect_new_endpoints` appends for the first in-window
request of an unknown endpoint key. -/
def mkNewEndpointAnomaly (pid : Nat) (r : ApiRequest) : Anomaly :=
  let m := r.method
  let p := r.path
  { project_id := pid
    type := AnomalyType.new_endpoint
    endpoint_path := some r.path
    ip := none
    message := s!"New endpoint detected: {m} {p}"
    severity := AnomalySeverity.low }

/-- The `for request in recent_requests` loop of `_detect_new_endpoints`:
`known` is the set of endpoint keys seen before the window, `seen` the
`seen_new_endpoints` accumulator. -/
def newEndpointLoop (pid : Nat) (known : List String) :
    List ApiRequest → List String → List Anomaly
  | [], _ => []
  | r :: rest, seen =>
    let key := endpointKey r.method r.path
    if key ∈ known ∨ key ∈ seen then
      newEndpointLoop pid known rest seen
    else
      mkNewEndpointAnomaly pid r :: newEndpointLoop pid known rest (key :: seen)

/-- Requests of the project inside the trailing 1-hour window
(`created_at >= datetime.utcnow() - timedelta(hours=1)`). -/
def recentRequests (events : List ApiRequest) (pid : Nat) (now : Int) :
    List ApiRequest :=
  events.filter fun e => e.project_id == pid && decide (e.created_at ≥ now - 3600)

/-- Endpoint keys of the project's requests strictly before the 1-hour window
(the `known_endpoints` set; the SQL `distinct` only removes duplicates, which
list membership ignores). -/
def knownEndpointKeys (events : List ApiRequest) (pid : Nat) (now : Int) :
    List String :=
  (events.filter fun e =>
      e.project_id == pid && decide (e.created_at < now - 3600)).map
    fun e => endpointKey e.method e.path

/-- `AnomalyDetector._detect_new_endpoints`, with the `datetime.utcnow()`
of line 50 passed as `now`. -/
def detectNewEndpoints (events : List ApiRequest) (pid : Nat) (now : Int) :
    List Anomaly :=
  newEndpointLoop pid (knownEndpointKeys events pid now)
    (recentRequests events pid now) []

/-- Requests of the project inside the trailing 1-minute rate-limit window. -/
def rlWindow (events : List ApiRequest) (pid : Nat) (now : Int) :
    List ApiRequest :=
  events.filter fun e => e.project_id == pid && decide (e.created_at ≥ now - 60)

/-- Request count of one IP inside the rate-limit window (the SQL
`func.count` grouped by `ApiRequest.ip`). -/
def ipCount (events : List ApiRequest) (pid : Nat) (now : Int) (ip : String) :
    Nat :=
  (rlWindow events pid now).countP fun e => e.ip == ip

/-- The distinct group keys of the rate-limit `GROUP BY ... HAVING` query:
IPs of the window whose count exceeds the threshold 100. -/
def offendingIps (events : List ApiRequest) (pid : Nat) (now : Int) :
    List String :=
  (((rlWindow events pid now).map fun e => e.ip).dedup).filter fun ip =>
    100 < ipCount events pid now ip

/-- The anomaly `_detect_rate_limit_violations` builds for one offending IP:
severity `MEDIUM`, overwritten with `HIGH` when `count > request_threshold * 2`. -/
def mkRateLimitAnomaly (pid : Nat) (ip : String) (count : Nat) : Anomaly :=
  { project_id := pid
    type := AnomalyType.rate_limit
    endpoint_path := none
    ip := some ip
    message := s!"Rate limit exceeded: {count} requests in 1 minute from IP {ip}"
    severity :=
      if 100 * 2 < count then AnomalySeverity.high else AnomalySeverity.medium }

/-- `AnomalyDetector._detect_rate_limit_violations`, with the
`datetime.utcnow()` of line 93 passed as `now`. -/
def detectRateLimitViolations (events : List ApiRequest) (pid : Nat)
    (now : Int) : List Anomaly :=
  (offendingIps events pid now).map fun ip =>
    mkRateLimitAnomaly pid ip (ipCount events pid now ip)

/-- Requests of the project inside the trailing 5-minute error-spike window. -/
def esWindow (events : List ApiRequest) (pid : Nat) (now : Int) :
    List ApiRequest :=
  events.filter fun e => e.project_id == pid && decide (e.created_at ≥ now - 300)

/-- Total request count of one `(method, path)` group in the error-spike
window. -/
def groupTotal (events : List ApiRequest) (pid : Nat) (now : Int)
    (g : String × String) : Nat :=
  (esWindow events pid now).countP fun e => e.method == g.1 && e.path == g.2

/-- `5xx` count of one `(method, path)` group in the error-spike window
(the `func.sum(case((status_code >= 500, 1), else_=0))` aggregate). -/
def groupErrors (events : List ApiRequest) (pid : Nat) (now : Int)
    (g : String × String) : Nat :=
  (esWindow events pid now).countP fun e =>
    e.method == g.1 && e.path == g.2 && decide (e.status_code ≥ 500)

/-- The distinct `(method, path)` group keys of the error-spike query. -/
def esGroups (events : List ApiRequest) (pid : Nat) (now : Int) :
    List (String × String) :=
  ((esWindow events pid now).map fun e => (e.method, e.path)).dedup

/-- `error_rate = error_count / total_count` of a group, as an exact
rational. -/
def groupErrorRate (events : List ApiRequest) (pid : Nat) (now : Int)
    (g : String × String) : ℚ :=
  (groupErrors events pid now g : ℚ) / (groupTotal events pid now g : ℚ)

/-- Groups the `for` loop of `_detect_error_spikes` turns into anomalies:
at least `min_requests = 10` samples and error rate at least
`error_threshold = 0.2`. -/
def esFlaggedGroups (events : List ApiRequest) (pid : Nat) (now : Int) :
    List (String × String) :=
  (esGroups events pid now).filter fun g =>
    10 ≤ groupTotal events pid now g ∧ 1 / 5 ≤ groupErrorRate events pid now g

/-- The anomaly `_detect_error_spikes` builds for one flagged group:
severity `MEDIUM`, overwritten with `HIGH` when `error_rate >= 0.5`. -/
def mkErrorSpikeAnomaly (events : List ApiRequest) (pid : Nat) (now : Int)
    (g : String × String) : Anomaly :=
  let ec := groupErrors events pid now g
  let tc := groupTotal events pid now g
  let m := g.1
  let p := g.2
  { project_id := pid
    type := AnomalyType.error_spike
    endpoint_path := some g.2
    ip := none
    message := s!"Error spike detected: {ec}/{tc} requests to {m} {p} returned 5xx errors"
    severity :=
      if 1 / 2 ≤ groupErrorRate events pid now g then AnomalySeverity.high
      else AnomalySeverity.medium }

/-- `AnomalyDetector._detect_error_spikes`, with the `datetime.utcnow()` of
line 129 passed as `now`. -/
def detectErrorSpikes (events : List ApiRequest) (pid : Nat) (now : Int) :
    List Anomaly :=
  (esFlaggedGroups events pid now).map (mkErrorSpikeAnomaly events pid now)

/-- The hardcoded `suspicious_countries` list of `AnomalyDetector.__init__`. -/
def suspiciousCountries : List String := ["KP", "IR", "SY", "CU"]

/-- The anomaly `_detect_suspicious_locations` builds for the first request
of a suspicious-country IP. -/
def mkSuspiciousLocationAnomaly (pid : Nat) (r : ApiRequest) : Anomaly :=
  let cc := r.country_code
  let ip := r.ip
  { project_id := pid
    type := AnomalyType.suspicious_location
    endpoint_path := some r.path
    ip := some r.ip
    message := s!"Access from suspicious location: {cc} (IP: {ip})"
    severity := AnomalySeverity.high }

/-- The `for request in suspicious_requests` loop of
`_detect_suspicious_locations` with its `seen_ips` accumulator. -/
def suspiciousLoop (pid : Nat) : List ApiRequest → List String → List Anomaly
  | [], _ => []
  | r :: rest, seen =>
    if r.ip ∈ seen then suspiciousLoop pid rest seen
    else mkSuspiciousLocationAnomaly pid r :: suspiciousLoop pid rest (r.ip :: seen)

/-- `AnomalyDetector._detect_suspicious_locations`, with the
`datetime.utcnow()` of line 173 passed as `now`: project requests of the
trailing 24 hours whose country code is deny-listed, one anomaly per
distinct IP. -/
def detectSuspiciousLocations (events : List ApiRequest) (pid : Nat)
    (now : Int) : List Anomaly :=
  suspiciousLoop pid
    (events.filter fun e =>
      e.project_id == pid && decide (e.created_at ≥ now - 86400) &&
        suspiciousCountries.contains e.country_code) []

/-- `AnomalyDetector.detect_anomalies`: runs the four scanners in order and
concatenates their results.  Each scanner in the source obtains its own
timestamp through a separate `datetime.utcnow()` call, so the embedding
passes one timestamp per scanner (`nNE`, `nRL`, `nES`, `nSL`), in the order
the calls are executed. -/
def detectAnomalies (events : List ApiRequest) (pid : Nat)
    (nNE nRL nES nSL : Int) : List Anomaly :=
  detectNewEndpoints events pid nNE ++
    detectRateLimitViolations events pid nRL ++
      detectErrorSpikes events pid nES ++
        detectSuspiciousLocations events pid nSL

/-- Detector state: the event store read by `detect_anomalies` and the
anomaly store it appends to (`self.db.add_all(anomalies)` + commit).  The
event store is never written by the detector. -/
structure DetectorState where
  events : List ApiRequest
  anomalies : List Anomaly
deriving DecidableEq, Repr

/-- One run of `AnomalyDetector.detect_anomalies` against the store: the
emitted anomalies are persisted to the anomaly store and returned; the
event store is unchanged. -/
def runDetect (st : DetectorState) (pid : Nat) (nNE nRL nES nSL : Int) :
    DetectorState × List Anomaly :=
  let out := detectAnomalies st.events pid nNE nRL nES nSL
  ({ st with anomalies := st.anomalies ++ out }, out)

/-- Analysis companion of `newEndpointLoop`: the requests (rather than the
anomalies built from them) the loop keeps — the first in-window request of
each endpoint key that is neither known nor already seen. -/
def neWitnessLoop (known : List String) :
    List ApiRequest → List String → List ApiRequest
  | [], _ => []
  | r :: rest, seen =>
    let key := endpointKey r.method r.path
    if key ∈ known ∨ key ∈ seen then
      neWitnessLoop known rest seen
    else
      r :: neWitnessLoop known rest (key :: seen)

/-- The requests `_detect_new_endpoints` turns into anomalies. -/
def neWitnesses (events : List ApiRequest) (pid : Nat) (now : Int) :
    List ApiRequest :=
  neWitnessLoop (knownEndpointKeys events pid now)
    (recentRequests events pid now) []

/-! ## Alert dispatcher (`core/alert_system.py`) -/

/-- The channel `config` JSONB map, restricted to the keys the dispatcher
reads: `config.get("email")` and `config.get("webhook_url")`. -/
structure ChannelConfig where
  email : Option String
  webhook_url : Option String
deriving DecidableEq, Repr

/-- `core/models.py` `AlertChannel` (columns the dispatcher reads). -/
structure AlertChannel where
  project_id : Nat
  type : String
  config : ChannelConfig
  active : Bool
deriving DecidableEq, Repr

/-- An `Anomaly` row as the dispatcher reads it (only `id` and `project_id`
steer control flow; the payload fields only feed message rendering, which
does not affect any delivery outcome). -/
structure AnomalyRow where
  id : Nat
  project_id : Nat
deriving DecidableEq, Repr

/-- `core/models.py` `Project` (columns the dispatcher reads). -/
structure ProjectRow where
  id : Nat
  name : String
deriving DecidableEq, Repr

/-- The tables `AlertSystem.send_alert` queries. -/
structure AlertDb where
  anomalies : List AnomalyRow
  projects : List ProjectRow
  channels : List AlertChannel
deriving Repr

/-- The environment read by `AlertSystem.__init__`: `EMAIL_PROVIDER`
(defaulted to `"resend"` by `os.getenv`), and the optional API keys. -/
structure AlertEnv where
  email_provider : String
  resend_api_key : Option String
  mailgun_api_key : Option String
  mailgun_domain : Option String
deriving DecidableEq, Repr

/-- The outbound HTTP capability: a POST to a URL either returns a response
status code or raises (`none`).  The request bodies built by the dispatcher
do not influence any success criterion, so the oracle is keyed by URL. -/
def Net : Type := String → Option Int

/-- `AlertSystem._send_resend_email`: fails without an API key, otherwise
POSTs to the Resend endpoint and succeeds iff the status is exactly 200.
An exception from the POST propagates to `_send_email_alert`, whose
`try/except` turns it into `False`; the composition is modelled here. -/
def sendResendEmail (env : AlertEnv) (net : Net) : Bool :=
  match env.resend_api_key with
  | none => false
  | some _ =>
    match net "https://api.resend.com/emails" with
    | none => false
    | some status => status == 200

/-- `AlertSystem._send_mailgun_email`: fails without an API key or domain,
otherwise POSTs to the Mailgun endpoint and succeeds iff the status is
exactly 200 (exception caught by the caller, as for Resend). -/
def sendMailgunEmail (env : AlertEnv) (net : Net) : Bool :=
  match env.mailgun_api_key, env.mailgun_domain with
  | some _, some dom =>
    match net ("https://api.mailgun.net/v3/" ++ dom ++ "/messages") with
    | none => false
    | some status => status == 200
  | _, _ => false

/-- `AlertSystem._send_email_alert`: `config.get("email")` absent yields
`False`; otherwise the configured provider is invoked under a `try/except`
that converts any error into `False`. -/
def sendEmailAlert (env : AlertEnv) (net : Net) (config : ChannelConfig) :
    Bool :=
  match config.email with
  | none => false
  | some _ =>
    if env.email_provider == "resend" then sendResendEmail env net
    else sendMailgunEmail env net

/-- `AlertSystem._send_slack_alert`: `config.get("webhook_url")` absent
yields `False`; otherwise the block message is POSTed to the webhook URL
under a `try/except`, succeeding iff `response.status_code == 200`. -/
def sendSlackAlert (net : Net) (config : ChannelConfig) : Bool :=
  match config.webhook_url with
  | none => false
  | some url =>
    match net url with
    | none => false
    | some status => status == 200

/-- `AlertSystem._send_webhook_alert`: `config.get("webhook_url")` absent
yields `False`; otherwise the payload is POSTed to the URL under a
`try/except`, succeeding iff `200 <= status_code < 300`. -/
def sendWebhookAlert (net : Net) (config : ChannelConfig) : Bool :=
  match config.webhook_url with
  | none => false
  | some url =>
    match net url with
    | none => false
    | some status => decide (200 ≤ status) && decide (status < 300)

/-- The `for channel in alert_channels` loop of `send_alert`: channels of
type email/slack/webhook append their delivery outcome to `results`;
channels of any other type append nothing. -/
def channelLoop (env : AlertEnv) (net : Net) : List AlertChannel → List Bool
  | [] => []
  | c :: rest =>
    if c.type == "email" then
      sendEmailAlert env net c.config :: channelLoop env net rest
    else if c.type == "slack" then
      sendSlackAlert net c.config :: channelLoop env net rest
    else if c.type == "webhook" then
      sendWebhookAlert net c.config :: channelLoop env net rest
    else
      channelLoop env net rest

/-- The delivery outcome of one channel, `none` when the channel's type is
not handled by the loop (analysis form of one `channelLoop` iteration). -/
def channelResult (env : AlertEnv) (net : Net) (c : AlertChannel) :
    Option Bool :=
  if c.type == "email" then some (sendEmailAlert env net c.config)
  else if c.type == "slack" then some (sendSlackAlert net c.config)
  else if c.type == "webhook" then some (sendWebhookAlert net c.config)
  else none

/-- The active channels of a project, as queried by `send_alert`. -/
def activeChannels (db : AlertDb) (pid : Nat) : List AlertChannel :=
  db.channels.filter fun c => c.project_id == pid && c.active

/-- `AlertSystem.send_alert`: loads the anomaly (`ValueError` if absent),
its project (`ValueError` if absent) and the project's active channels;
returns `False` when there are none, otherwise `all(results)` over the
channel loop. -/
def send_alert (env : AlertEnv) (net : Net) (db : AlertDb) (anomalyId : Nat) :
    Except String Bool :=
  match (db.anomalies.filter fun a => a.id == anomalyId).head? with
  | none => Except.error s!"Anomaly with ID {anomalyId} not found"
  | some anomaly =>
    match (db.projects.filter fun p => p.id == anomaly.project_id).head? with
    | none =>
      let pid := anomaly.project_id
      Except.error s!"Project with ID {pid} not found"
    | some project =>
      let chans := activeChannels db project.id
      if chans.isEmpty then Except.ok false
      else Except.ok ((channelLoop env net chans).all id)

/-! ## Alert sweep of the scheduler (`jobs/tasks.py` `process_new_anomalies`) -/

/-- An anomaly row as the alert sweep reads and writes it. -/
structure StoredAnomaly where
  id : Nat
  created_at : Int
  processed : Bool
deriving DecidableEq, Repr

/-- Observable actions of one alert sweep, in execution order:
`mark i` is the `anomaly.processed = True; db.commit()` pair for anomaly
`i`, `dispatch i` the subsequent `send_anomaly_alert.delay(...)` call. -/
inductive SweepEvent
  | mark (id : Nat)
  | dispatch (id : Nat)
deriving DecidableEq, Repr

/-- The selection query of `process_new_anomalies`: anomalies with
`created_at` inside the trailing hour and `processed == False`. -/
def sweepSelect (now : Int) (store : List StoredAnomaly) :
    List StoredAnomaly :=
  store.filter fun a => decide (a.created_at ≥ now - 3600) && !a.processed

/-- Ids returned by the selection query. -/
def sweepSelectIds (now : Int) (store : List StoredAnomaly) : List Nat :=
  (sweepSelect now store).map fun a => a.id

/-- The `for anomaly in anomalies` loop of `process_new_anomalies`: each
selected id is first marked processed (and the update committed to the
store), then dispatched. -/
def sweepLoop : List Nat → List StoredAnomaly →
    List StoredAnomaly × List SweepEvent
  | [], store => (store, [])
  | i :: rest, store =>
    let store' := store.map fun a =>
      if a.id == i then { a with processed := true } else a
    let r := sweepLoop rest store'
    (r.1, SweepEvent.mark i :: SweepEvent.dispatch i :: r.2)

/-- `process_new_anomalies`: selects the unprocessed recent anomalies once,
then runs the mark-commit-dispatch loop; returns the final store and the
trace of actions. -/
def process_new_anomalies (now : Int) (store : List StoredAnomaly) :
    List StoredAnomaly × List SweepEvent :=
  sweepLoop (sweepSelectIds now store) store

/-! ## Concrete fixtures for counterexamples and witnesses -/

/-- Five identical `GET /a` events of project 0 at time 9000 (inside the
1-hour window of `now = 10000`), the spec's idempotence scenario. -/
def evsFiveGetA : List ApiRequest :=
  List.replicate 5
    { project_id := 0, method := "GET", path := "/a", status_code := 200,
      ip := "1.1.1.1", country_code := "US", created_at := 9000 }

/-- Detector state holding only the five `GET /a` events. -/
def stFiveGetA : DetectorState := { events := evsFiveGetA, anomalies := [] }

/-- Two in-window events of project 0 whose `(method, path)` pairs are
distinct but whose colon-joined endpoint keys coincide
(`"GET:/x" ++ ":" ++ "y" = "GET" ++ ":" ++ "/x:y"`). -/
def evsColonClash : List ApiRequest :=
  [{ project_id := 0, method := "GET:/x", path := "y", status_code := 200,
     ip := "1.1.1.1", country_code := "US", created_at := 9000 },
   { project_id := 0, method := "GET", path := "/x:y", status_code := 200,
     ip := "1.1.1.1", country_code := "US", created_at := 9100 }]

/-- A single event of project 0 from a deny-listed country at time 0. -/
def evsSuspicious : List ApiRequest :=
  [{ project_id := 0, method := "GET", path := "/a", status_code := 200,
     ip := "9.9.9.9", country_code := "KP", created_at := 0 }]

/-- Environment with a Resend key configured. -/
def envResend : AlertEnv :=
  { email_provider := "resend", resend_api_key := some "k",
    mailgun_api_key := none, mailgun_domain := none }

/-- Network oracle answering every POST with status 200. -/
def netOk200 : Net := fun _ => some 200

/-- Network oracle answering every POST with status 201 (a 2xx success). -/
def netOk201 : Net := fun _ => some 201

/-- Network oracle on which every POST raises. -/
def netDown : Net := fun _ => none

/-- A config carrying only a webhook URL. -/
def webhookOnlyConfig : ChannelConfig := { email := none, webhook_url := some "https://hooks.example/u" }

/-- An active Slack channel of project 1. -/
def slackChannel : AlertChannel :=
  { project_id := 1, type := "slack", config := webhookOnlyConfig, active := true }

/-- An active channel of project 1 with the unhandled type `"sms"`. -/
def smsChannel : AlertChannel :=
  { project_id := 1, type := "sms",
    config := { email := none, webhook_url := none }, active := true }

/-- Alert tables: anomaly 5 of project 1, whose only channel is Slack. -/
def dbSlack : AlertDb :=
  { anomalies := [{ id := 5, project_id := 1 }],
    projects := [{ id := 1, name := "P" }], channels := [slackChannel] }

/-- Alert tables: anomaly 5 of project 1, whose only channel has the
unhandled type `"sms"`. -/
def dbSms : AlertDb :=
  { anomalies := [{ id := 5, project_id := 1 }],
    projects := [{ id := 1, name := "P" }], channels := [smsChannel] }

end ApiSentinel

namespace ApiSentinel

/-! ## Helper lemmas -/

/-- The anomaly loop of `_detect_new_endpoints` is the anomaly constructor
mapped over the kept requests. -/
theorem newEndpointLoop_eq_map (pid : Nat) (known : List String) :
    ∀ (rs : List ApiRequest) (seen : List String),
      newEndpointLoop pid known rs seen =
        (neWitnessLoop known rs seen).map (mkNewEndpointAnomaly pid) := by
  intro rs
  induction rs with
  | nil => intro seen; rfl
  | cons r rest ih =>
    intro seen
    by_cases h : endpointKey r.method r.path ∈ known ∨
        endpointKey r.method r.path ∈ seen
    · simp only [newEndpointLoop, neWitnessLoop, if_pos h]
      exact ih seen
    · simp only [newEndpointLoop, neWitnessLoop, if_neg h, List.map_cons]
      exact congrArg _ (ih _)

/-- Key-count characterisation of the new-endpoint loop: a key neither
known nor already seen is kept exactly once when some remaining request
carries it, and keys that are known or seen are never kept. -/
theorem neWitnessLoop_countP (known : List String) (k : String) :
    ∀ (rs : List ApiRequest) (seen : List String),
      (neWitnessLoop known rs seen).countP
          (fun r => endpointKey r.method r.path == k) =
        if k ∈ known ∨ k ∈ seen then 0
        else if rs.any (fun r => endpointKey r.method r.path == k) then 1
        else 0 := by
  intro rs
  induction rs with
  | nil =>
    intro seen
    simp [neWitnessLoop]
  | cons r rest ih =>
    intro seen
    by_cases hm : endpointKey r.method r.path ∈ known ∨
        endpointKey r.method r.path ∈ seen
    · simp only [neWitnessLoop, if_pos hm]
      rw [ih seen]
      by_cases hk : k ∈ known ∨ k ∈ seen
      · simp [hk]
      · have hne : ¬(endpointKey r.method r.path == k) = true := by
          intro hEq
          exact hk (by rw [← beq_iff_eq.mp hEq]; exact hm)
        simp [hk, List.any_cons, hne]
    · simp only [neWitnessLoop, if_neg hm]
      by_cases hrk : endpointKey r.method r.path = k
      · have hk : ¬(k ∈ known ∨ k ∈ seen) := by rw [← hrk]; exact hm
        rw [List.countP_cons]
        rw [ih (endpointKey r.method r.path :: seen)]
        have : (k ∈ known ∨ k ∈ endpointKey r.method r.path :: seen) := by
          right; rw [hrk]; exact List.mem_cons_self _ _
        simp [this, hk, hrk, List.any_cons]
      · rw [List.countP_cons]
        rw [ih (endpointKey r.method r.path :: seen)]
        have hbeq : ¬(endpointKey r.method r.path == k) = true := by
          simpa using hrk
        have hmem : (k ∈ known ∨ k ∈ endpointKey r.method r.path :: seen) ↔
            (k ∈ known ∨ k ∈ seen) := by
          constructor
          · rintro (h | h)
            · exact Or.inl h
            · rcases List.mem_cons.mp h with h | h
              · exact absurd h.symm hrk
              · exact Or.inr h
          · rintro (h | h)
            · exact Or.inl h
            · exact Or.inr (List.mem_cons_of_mem _ h)
        have hb : (endpointKey r.method r.path == k) = false :=
          beq_eq_false_iff_ne.mpr hrk
        by_cases hk : k ∈ known ∨ k ∈ seen
        · rw [if_pos (hmem.mpr hk), if_pos hk, if_neg hbeq]
        · rw [if_neg (fun h => hk (hmem.mp h)), if_neg hk, if_neg hbeq,
            List.any_cons, hb, Bool.false_or, Nat.add_zero]

/-- Counting occurrences of an element in a duplicate-free list. -/
theorem countP_beq_of_nodup {α : Type} [BEq α] [LawfulBEq α] {l : List α}
    (hl : l.Nodup) (a : α) :
    l.countP (fun x => x == a) = if a ∈ l then 1 else 0 := by
  induction l with
  | nil => rfl
  | cons b l ih =>
    rcases List.nodup_cons.mp hl with ⟨hb, hl'⟩
    rw [List.countP_cons, ih hl']
    by_cases hba : b = a
    · subst hba
      simp [hb]
    · have h1 : ¬(b == a) = true := by simp [hba]
      have h2 : a ∈ b :: l ↔ a ∈ l := by
        rw [List.mem_cons]
        constructor
        · rintro (h | h)
          · exact absurd h.symm hba
          · exact h
        · exact Or.inr
      by_cases hm : a ∈ l
      · rw [if_pos hm, if_pos (h2.mpr hm), if_neg h1, Nat.add_zero]
      · rw [if_neg hm, if_neg (fun h => hm (h2.mp h)), if_neg h1, Nat.add_zero]

/-- The offending-IP group keys of the rate-limit query are
duplicate-free. -/
theorem offendingIps_nodup (events : List ApiRequest) (pid : Nat) (now : Int) :
    (offendingIps events pid now).Nodup :=
  List.Nodup.filter _ (List.nodup_dedup _)

/-- Membership in the offending-IP group keys. -/
theorem mem_offendingIps {events : List ApiRequest} {pid : Nat} {now : Int}
    {ip : String} :
    ip ∈ offendingIps events pid now ↔
      (∃ e ∈ rlWindow events pid now, e.ip = ip) ∧
        100 < ipCount events pid now ip := by
  unfold offendingIps
  rw [List.mem_filter, List.mem_dedup]
  constructor
  · rintro ⟨hmem, hlt⟩
    rcases List.mem_map.mp hmem with ⟨e, he, hei⟩
    exact ⟨⟨e, he, hei⟩, of_decide_eq_true hlt⟩
  · rintro ⟨⟨e, he, hei⟩, hlt⟩
    exact ⟨List.mem_map.mpr ⟨e, he, hei⟩, decide_eq_true hlt⟩

/-- An IP with a positive window count occurs as the IP of some window
event. -/
theorem exists_window_event_of_ipCount_pos {events : List ApiRequest}
    {pid : Nat} {now : Int} {ip : String}
    (h : 0 < ipCount events pid now ip) :
    ∃ e ∈ rlWindow events pid now, e.ip = ip := by
  rcases List.countP_pos_iff.mp h with ⟨e, he, hip⟩
  exact ⟨e, he, beq_iff_eq.mp hip⟩

/-- The error-spike group keys are duplicate-free. -/
theorem esFlaggedGroups_nodup (events : List ApiRequest) (pid : Nat)
    (now : Int) : (esFlaggedGroups events pid now).Nodup :=
  List.Nodup.filter _ (List.nodup_dedup _)

/-- Membership in the flagged error-spike groups. -/
theorem mem_esFlaggedGroups {events : List ApiRequest} {pid : Nat} {now : Int}
    {g : String × String} :
    g ∈ esFlaggedGroups events pid now ↔
      (∃ e ∈ esWindow events pid now, (e.method, e.path) = g) ∧
        10 ≤ groupTotal events pid now g ∧
          1 / 5 ≤ groupErrorRate events pid now g := by
  unfold esFlaggedGroups esGroups
  rw [List.mem_filter, List.mem_dedup]
  constructor
  · rintro ⟨hmem, hcond⟩
    rcases List.mem_map.mp hmem with ⟨e, he, hei⟩
    exact ⟨⟨e, he, hei⟩, of_decide_eq_true hcond⟩
  · rintro ⟨⟨e, he, hei⟩, hcond⟩
    exact ⟨List.mem_map.mpr ⟨e, he, hei⟩, decide_eq_true hcond⟩

/-- A group with a positive window total occurs as the group key of some
window event. -/
theorem exists_window_event_of_groupTotal_pos {events : List ApiRequest}
    {pid : Nat} {now : Int} {g : String × String}
    (h : 0 < groupTotal events pid now g) :
    ∃ e ∈ esWindow events pid now, (e.method, e.path) = g := by
  rcases List.countP_pos_iff.mp h with ⟨e, he, hg⟩
  simp only [Bool.and_eq_true, beq_iff_eq] at hg
  refine ⟨e, he, ?_⟩
  rw [hg.1, hg.2]

/-- The channel loop of `send_alert` collects exactly the per-channel
outcomes of the handled channel types, in order: one channel's result —
success or failure — never prevents the following channels from being
attempted. -/
theorem channelLoop_eq_filterMap (env : AlertEnv) (net : Net) :
    ∀ chans : List AlertChannel,
      channelLoop env net chans = chans.filterMap (channelResult env net) := by
  intro chans
  induction chans with
  | nil => rfl
  | cons c rest ih =>
    by_cases he : c.type == "email"
    · simp [channelLoop, channelResult, he, ih]
    · by_cases hs : c.type == "slack"
      · simp [channelLoop, channelResult, he, hs, ih]
      · by_cases hw : c.type == "webhook"
        · simp [channelLoop, channelResult, he, hs, hw, ih]
        · simp [channelLoop, channelResult, he, hs, hw, ih]

/-- The store after the sweep loop: exactly the rows whose id was selected
have been marked processed. -/
theorem sweepLoop_store : ∀ (ids : List Nat) (store : List StoredAnomaly),
    (sweepLoop ids store).1 =
      store.map fun a =>
        if a.id ∈ ids then { a with processed := true } else a := by
  intro ids
  induction ids with
  | nil =>
    intro store
    simp [sweepLoop]
  | cons i rest ih =>
    intro store
    rw [sweepLoop, ih, List.map_map]
    apply List.map_congr_left
    intro a _
    by_cases hi : a.id = i
    · by_cases hr : a.id ∈ rest
      · simp [Function.comp, hi, hr]
      · simp [Function.comp, hi, hr]
    · have hb : (a.id == i) = false := beq_eq_false_iff_ne.mpr hi
      by_cases hr : a.id ∈ rest
      · simp [Function.comp, hb, hi, hr]
      · simp [Function.comp, hb, hi, hr]

/-- The action trace of the sweep loop: for each selected id, in selection
order, a mark-and-commit immediately followed by its dispatch. -/
theorem sweepLoop_trace : ∀ (ids : List Nat) (store : List StoredAnomaly),
    (sweepLoop ids store).2 =
      ids.flatMap fun i => [SweepEvent.mark i, SweepEvent.dispatch i] := by
  intro ids
  induction ids with
  | nil => intro store; rfl
  | cons i rest ih =>
    intro store
    rw [List.flatMap_cons, ← ih]
    rfl

/-! ## Claim theorems -/

/-- C4: for every client-IP group of the 1-minute rate-limit window with
request count `c` and threshold 100: `c ≤ 100` emits no anomaly for that IP
(first conjunct with `if`-value 0); `100 < c` emits exactly one `RateLimit`
anomaly for that IP (first conjunct with `if`-value 1), and that one
anomaly carries severity `High` exactly when `200 < c` and `Medium`
otherwise (second conjunct: counting only anomalies with the prescribed
severity and type gives the same count 1). -/
theorem rate_limit_severity_bands (events : List ApiRequest) (pid : Nat)
    (now : Int) (ip : String) :
    ((detectRateLimitViolations events pid now).countP
        (fun a => a.ip == some ip) =
      if ipCount events pid now ip ≤ 100 then 0 else 1)
    ∧ ((detectRateLimitViolations events pid now).countP
        (fun a => a.ip == some ip &&
          (a.severity ==
            if 200 < ipCount events pid now ip then AnomalySeverity.high
            else AnomalySeverity.medium) &&
          (a.type == AnomalyType.rate_limit)) =
      if ipCount events pid now ip ≤ 100 then 0 else 1) := by
  have hmain : ∀ p : Anomaly → Bool,
      (∀ x ∈ offendingIps events pid now,
        p (mkRateLimitAnomaly pid x (ipCount events pid now x)) =
          (x == ip)) →
      (detectRateLimitViolations events pid now).countP p =
        if ipCount events pid now ip ≤ 100 then 0 else 1 := by
    intro p hp
    unfold detectRateLimitViolations
    rw [List.countP_map]
    have hcongr :
        List.countP
            (p ∘ fun x => mkRateLimitAnomaly pid x (ipCount events pid now x))
            (offendingIps events pid now) =
          List.countP (fun x => x == ip) (offendingIps events pid now) := by
      apply List.countP_congr
      intro x hx
      rw [Function.comp_apply, hp x hx]
    rw [hcongr, countP_beq_of_nodup (offendingIps_nodup events pid now) ip]
    by_cases hc : ipCount events pid now ip ≤ 100
    · rw [if_pos hc, if_neg]
      intro hmem
      exact absurd (mem_offendingIps.mp hmem).2 (not_lt.mpr hc)
    · rw [if_neg hc, if_pos]
      have hlt : 100 < ipCount events pid now ip := not_le.mp hc
      exact mem_offendingIps.mpr
        ⟨exists_window_event_of_ipCount_pos (Nat.lt_of_lt_of_le (by norm_num) hlt.le), hlt⟩
  constructor
  · apply hmain
    intro x _
    by_cases hxi : x = ip
    · subst hxi; simp [mkRateLimitAnomaly]
    · simp [mkRateLimitAnomaly, hxi]
  · apply hmain
    intro x _
    by_cases hxi : x = ip
    · subst hxi; simp [mkRateLimitAnomaly]
    · simp [mkRateLimitAnomaly, hxi]

/-- C5: for every `(method, path)` group of the 5-minute error-spike window:
a group with total below 10 emits nothing regardless of its error rate
(first conjunct, value 0); a group with total at least 10 emits exactly one
anomaly when its 5xx rate is at least 1/5 and none otherwise (first
conjunct); every emitted anomaly is the `ErrorSpike` record of its group
(second conjunct), and the one anomaly of a flagged group carries severity
`High` exactly when the rate is at least 1/2 and `Medium` otherwise (third
conjunct). -/
theorem error_spike_rate_thresholds (events : List ApiRequest) (pid : Nat)
    (now : Int) (g : String × String) :
    ((esFlaggedGroups events pid now).countP (fun x => x == g) =
      if groupTotal events pid now g < 10 then 0
      else if 1 / 5 ≤ groupErrorRate events pid now g then 1 else 0)
    ∧ detectErrorSpikes events pid now =
        (esFlaggedGroups events pid now).map (mkErrorSpikeAnomaly events pid now)
    ∧ ((esFlaggedGroups events pid now).countP
        (fun x => x == g &&
          ((mkErrorSpikeAnomaly events pid now x).severity ==
            if 1 / 2 ≤ groupErrorRate events pid now g then AnomalySeverity.high
            else AnomalySeverity.medium) &&
          ((mkErrorSpikeAnomaly events pid now x).type ==
            AnomalyType.error_spike)) =
      if groupTotal events pid now g < 10 then 0
      else if 1 / 5 ≤ groupErrorRate events pid now g then 1 else 0) := by
  have hmem : g ∈ esFlaggedGroups events pid now ↔
      (10 ≤ groupTotal events pid now g ∧
        1 / 5 ≤ groupErrorRate events pid now g) := by
    rw [mem_esFlaggedGroups]
    constructor
    · rintro ⟨_, h⟩; exact h
    · rintro ⟨ht, hr⟩
      refine ⟨exists_window_event_of_groupTotal_pos ?_, ht, hr⟩
      exact Nat.lt_of_lt_of_le (by norm_num) ht
  have hcount : ∀ p : (String × String) → Bool,
      (∀ x ∈ esFlaggedGroups events pid now, p x = (x == g)) →
      (esFlaggedGroups events pid now).countP p =
        if groupTotal events pid now g < 10 then 0
        else if 1 / 5 ≤ groupErrorRate events pid now g then 1 else 0 := by
    intro p hp
    have hcg : (esFlaggedGroups events pid now).countP p =
        (esFlaggedGroups events pid now).countP (fun x => x == g) :=
      List.countP_congr fun x hx => by rw [hp x hx]
    rw [hcg, countP_beq_of_nodup (esFlaggedGroups_nodup events pid now) g]
    by_cases ht : groupTotal events pid now g < 10
    · rw [if_pos ht, if_neg]
      intro hg
      exact absurd (hmem.mp hg).1 (not_le.mpr ht)
    · rw [if_neg ht]
      by_cases hr : 1 / 5 ≤ groupErrorRate events pid now g
      · rw [if_pos hr, if_pos (hmem.mpr ⟨not_lt.mp ht, hr⟩)]
      · rw [if_neg hr, if_neg]
        intro hg
        exact absurd (hmem.mp hg).2 hr
  refine ⟨?_, rfl, ?_⟩
  · apply hcount
    intro x _
    rfl
  · apply hcount
    intro x hx
    by_cases hxg : x = g
    · subst hxg; simp [mkErrorSpikeAnomaly]
    · have hb : (x == g) = false := beq_eq_false_iff_ne.mpr hxg
      simp [hb]

/-- C6 (amended): `_detect_new_endpoints` emits the anomalies of its kept
requests in order (first conjunct); per distinct endpoint *key*
`method ++ ":" ++ path`, a key occurring among the pre-window events is
never flagged and a key absent there is flagged exactly once when it occurs
in the window, regardless of its repeat count (second conjunct); every
emitted anomaly has severity `Low` and kind `NewEndpoint` (third conjunct).
The source keys endpoints by the joined string, not by the `(method, path)`
pair, so distinct pairs with colliding keys are conflated — the deviation
exhibited by the counterexample. -/
theorem new_endpoint_distinct_key_once (events : List ApiRequest) (pid : Nat)
    (now : Int) :
    detectNewEndpoints events pid now =
        (neWitnesses events pid now).map (mkNewEndpointAnomaly pid)
    ∧ (∀ k : String,
        (neWitnesses events pid now).countP
            (fun r => endpointKey r.method r.path == k) =
          if k ∈ knownEndpointKeys events pid now then 0
          else if (recentRequests events pid now).any
              (fun r => endpointKey r.method r.path == k) then 1
          else 0)
    ∧ (∀ r : ApiRequest,
        (mkNewEndpointAnomaly pid r).severity = AnomalySeverity.low ∧
          (mkNewEndpointAnomaly pid r).type = AnomalyType.new_endpoint) := by
  refine ⟨newEndpointLoop_eq_map pid _ _ _, ?_, fun r => ⟨rfl, rfl⟩⟩
  intro k
  have h := neWitnessLoop_countP (knownEndpointKeys events pid now) k
    (recentRequests events pid now) []
  simpa [neWitnesses] using h

/-- C6 (counterexample): two in-window events with *distinct*
`(method, path)` pairs — `("GET:/x", "y")` and `("GET", "/x:y")` — whose
colon-joined keys coincide, with an empty pre-window history, produce a
single anomaly, not one per distinct pair as the claim requires. -/
theorem new_endpoint_colon_collision_cex :
    (detectNewEndpoints evsColonClash 0 10000).length = 1
    ∧ evsColonClash.length = 2
    ∧ (evsColonClash.map fun e => (e.method, e.path)).Nodup
    ∧ knownEndpointKeys evsColonClash 0 10000 = []
    ∧ recentRequests evsColonClash 0 10000 = evsColonClash := by
  refine ⟨rfl, rfl, by decide, rfl, rfl⟩

/-- C3 (amended): re-running detection leaves the event store untouched, so
a second `detect_anomalies` sweep over the unchanged history *with the same
window* returns exactly the anomalies of the first run again (first
conjunct) — not zero anomalies; a previously flagged endpoint key is
flagged zero times by a later run exactly when it has aged out, i.e. when
every event carrying the key lies strictly before the second run's window
start (second conjunct). -/
theorem detect_rerun_behaviour :
    (∀ (st : DetectorState) (pid : Nat) (nNE nRL nES nSL : Int),
      (runDetect (runDetect st pid nNE nRL nES nSL).1 pid nNE nRL nES nSL).2 =
        (runDetect st pid nNE nRL nES nSL).2)
    ∧ (∀ (st : DetectorState) (pid : Nat) (now₂ : Int) (m p : String),
        (∀ e ∈ st.events, e.project_id = pid →
          endpointKey e.method e.path = endpointKey m p →
          e.created_at < now₂ - 3600) →
        (neWitnesses st.events pid now₂).countP
            (fun r => endpointKey r.method r.path == endpointKey m p) = 0) := by
  constructor
  · intro st pid nNE nRL nES nSL
    rfl
  · intro st pid now₂ m p hold
    have h := neWitnessLoop_countP (knownEndpointKeys st.events pid now₂)
      (endpointKey m p) (recentRequests st.events pid now₂) []
    have hany : (recentRequests st.events pid now₂).any
        (fun r => endpointKey r.method r.path == endpointKey m p) = false := by
      rw [List.any_eq_false]
      intro r hr hbeq
      rcases List.mem_filter.mp hr with ⟨hre, hcond⟩
      simp only [Bool.and_eq_true, beq_iff_eq, decide_eq_true_eq] at hcond
      have h1 : r.project_id = pid := hcond.1
      have h2 : r.created_at ≥ now₂ - 3600 := hcond.2
      have h3 : endpointKey r.method r.path = endpointKey m p :=
        beq_iff_eq.mp hbeq
      exact absurd h2 (not_le.mpr (hold r hre h1 h3))
    have hdef : (neWitnesses st.events pid now₂).countP
        (fun r => endpointKey r.method r.path == endpointKey m p) =
        (neWitnessLoop (knownEndpointKeys st.events pid now₂)
          (recentRequests st.events pid now₂) []).countP
          (fun r => endpointKey r.method r.path == endpointKey m p) := rfl
    rw [hdef, h, hany]
    by_cases hk : endpointKey m p ∈ knownEndpointKeys st.events pid now₂
    · simp [hk]
    · simp [hk]

/-- C3 (witness): for the five `GET /a` events created at time 9000, a run
at `now₂ = 20000` (window start 16400) flags the pair zero times — the pair
has aged into history. -/
theorem detect_rerun_behaviour_witness :
    (neWitnesses stFiveGetA.events 0 20000).countP
        (fun r => endpointKey r.method r.path == endpointKey "GET" "/a") = 0 :=
  detect_rerun_behaviour.2 stFiveGetA 0 20000 "GET" "/a" (by decide)

/-- C3 (counterexample): starting from five `GET /a` events at time 9000
and an empty anomaly store, a first detection run at `now = 10000` emits
one anomaly; a second run over the resulting state — unchanged event
history, no new events, the same window — emits one anomaly again, not the
zero anomalies the claim requires. -/
theorem detect_rerun_same_window_cex :
    (runDetect stFiveGetA 0 10000 10000 10000 10000).2.length = 1
    ∧ (runDetect (runDetect stFiveGetA 0 10000 10000 10000 10000).1
        0 10000 10000 10000 10000).2.length = 1 :=
  ⟨rfl, rfl⟩

/-- C7 (amended): `detect_anomalies` gives each of the four scanners its own
`datetime.utcnow()` timestamp rather than one shared `now`; the run is a
function of the four per-scanner timestamps, and boundary skew is possible:
there are event histories on which the sweep with distinct per-scanner
timestamps differs from the same sweep with the single shared timestamp. -/
theorem detect_boundary_skew_possible :
    ∃ (events : List ApiRequest) (pid : Nat) (n n' : Int),
      detectAnomalies events pid n n n n' ≠
        detectAnomalies events pid n n n n := by
  refine ⟨evsSuspicious, 0, 90000, 86400, ?_⟩
  intro h
  have h1 : (detectAnomalies evsSuspicious 0 90000 90000 90000 86400).length = 1 :=
    rfl
  have h2 : (detectAnomalies evsSuspicious 0 90000 90000 90000 90000).length = 0 :=
    rfl
  rw [h, h2] at h1
  exact Nat.zero_ne_one h1

/-- C7 (counterexample): the claim — every scanner's window is computed
from the single timestamp obtained at sweep start, so the result equals the
run in which all four scanners share the first timestamp — fails
concretely: a single deny-listed-country event at time 0 is reported by the
suspicious-location scanner when its own `utcnow()` returns 86400 but not
when it returns the shared 90000, while the other windows are unaffected. -/
theorem detect_shared_now_cex :
    detectAnomalies evsSuspicious 0 90000 90000 90000 86400 ≠
      detectAnomalies evsSuspicious 0 90000 90000 90000 90000 := by
  intro h
  have h1 : (detectAnomalies evsSuspicious 0 90000 90000 90000 86400).length = 1 :=
    rfl
  have h2 : (detectAnomalies evsSuspicious 0 90000 90000 90000 90000).length = 0 :=
    rfl
  rw [h, h2] at h1
  exact Nat.zero_ne_one h1

/-- C1: in one alert sweep, the action trace is exactly, for each selected
anomaly (unprocessed, created within the last hour) in selection order, its
mark-processed-and-commit followed by its dispatch — so the mark and commit
precede the dispatch, and each selected anomaly is marked exactly once
(first conjunct); every store row whose id was selected ends the sweep with
`processed = true` (second conjunct); and no sweep at any later (or any
other) time re-selects an id selected by this sweep, since re-selection
requires `processed = false` (third conjunct). -/
theorem alert_sweep_mark_before_dispatch (now now₂ : Int)
    (store : List StoredAnomaly) :
    ((process_new_anomalies now store).2 =
      (sweepSelectIds now store).flatMap fun i =>
        [SweepEvent.mark i, SweepEvent.dispatch i])
    ∧ ((process_new_anomalies now store).1.all fun a =>
        !((sweepSelectIds now store).contains a.id) || a.processed)
    ∧ ((sweepSelectIds now₂ (process_new_anomalies now store).1).all fun i =>
        !((sweepSelectIds now store).contains i)) := by
  refine ⟨sweepLoop_trace _ _, ?_, ?_⟩
  · rw [List.all_eq_true]
    intro a ha
    have hst : (process_new_anomalies now store).1 =
        store.map fun b =>
          if b.id ∈ sweepSelectIds now store then { b with processed := true }
          else b := sweepLoop_store _ _
    rw [hst] at ha
    rcases List.mem_map.mp ha with ⟨b, _, hba⟩
    by_cases hid : b.id ∈ sweepSelectIds now store
    · rw [if_pos hid] at hba
      rw [← hba]
      simp
    · rw [if_neg hid] at hba
      rw [← hba]
      simp [hid]
  · rw [List.all_eq_true]
    intro i hi
    have hst : (process_new_anomalies now store).1 =
        store.map fun b =>
          if b.id ∈ sweepSelectIds now store then { b with processed := true }
          else b := sweepLoop_store _ _
    rw [hst] at hi
    rcases List.mem_map.mp hi with ⟨a, haf, hai⟩
    rcases List.mem_filter.mp haf with ⟨ham, hcond⟩
    simp only [Bool.and_eq_true, decide_eq_true_eq, Bool.not_eq_true'] at hcond
    rcases List.mem_map.mp ham with ⟨b, _, hba⟩
    by_cases hid : b.id ∈ sweepSelectIds now store
    · rw [if_pos hid] at hba
      rw [← hba] at hcond
      exact absurd hcond.2 (by simp)
    · rw [if_neg hid] at hba
      rw [← hba] at hai
      rw [← hai]
      simp [hid]

/-- C2: when the anomaly and its project resolve, `send_alert` returns the
separate no-channel outcome `False` for a project with zero active channels
(first conjunct), and for a project with at least one active channel it
returns `True` exactly when no attempted channel delivery failed — the
logical AND of the per-channel outcomes (second conjunct). -/
theorem dispatch_result_is_and_of_channels (env : AlertEnv) (net : Net)
    (db : AlertDb) (aid : Nat) (anomaly : AnomalyRow) (project : ProjectRow)
    (ha : (db.anomalies.filter fun a => a.id == aid).head? = some anomaly)
    (hp : (db.projects.filter fun p => p.id == anomaly.project_id).head? =
      some project) :
    (activeChannels db project.id = [] →
      send_alert env net db aid = Except.ok false)
    ∧ (activeChannels db project.id ≠ [] →
        (send_alert env net db aid = Except.ok true ↔
          ∀ c ∈ activeChannels db project.id,
            channelResult env net c ≠ some false)) := by
  have hsa : send_alert env net db aid =
      if (activeChannels db project.id).isEmpty then Except.ok false
      else Except.ok ((channelLoop env net (activeChannels db project.id)).all id) := by
    unfold send_alert
    simp only [ha, hp]
  constructor
  · intro hnil
    rw [hsa, if_pos (by rw [hnil]; rfl)]
  · intro hne
    have hemp : (activeChannels db project.id).isEmpty = false := by
      cases h : (activeChannels db project.id).isEmpty
      · rfl
      · exact absurd (List.isEmpty_iff.mp h) hne
    rw [hsa, hemp]
    simp only [Bool.false_eq_true, if_false]
    constructor
    · intro hok c hc hf
      have hall : (channelLoop env net (activeChannels db project.id)).all id =
          true := by
        have := hok
        rwa [Except.ok.injEq] at this
      rw [channelLoop_eq_filterMap, List.all_eq_true] at hall
      have hb := hall false (List.mem_filterMap.mpr ⟨c, hc, hf⟩)
      exact Bool.false_ne_true hb
    · intro hall
      have : (channelLoop env net (activeChannels db project.id)).all id =
          true := by
        rw [channelLoop_eq_filterMap, List.all_eq_true]
        intro b hb
        rcases List.mem_filterMap.mp hb with ⟨c, hc, hcr⟩
        cases b
        · exact absurd hcr (hall c hc)
        · rfl
      rw [this]

/-- C2 (witness): anomaly 5 of project 1, one active Slack channel, every
POST answered with 200: the dispatch succeeds. -/
theorem dispatch_result_witness :
    send_alert envResend netOk200 dbSlack 5 = Except.ok true :=
  ((dispatch_result_is_and_of_channels envResend netOk200 dbSlack 5
      { id := 5, project_id := 1 } { id := 1, name := "P" } (by decide)
      (by decide)).2 (by decide)).mpr (by decide)

/-- C8: channel failures are isolated and never propagated.  The loop
collects one outcome per handled channel so no channel's failure stops the
following channels (first conjunct); a missing `email` config field fails
the email channel (second), a missing `webhook_url` fails the Slack and
webhook channels (third); an exception from the POST yields `False` for
Slack and webhook (fourth) and for email whatever the provider (fifth);
and a failed channel forces the aggregate AND over all outcomes to `False`
(sixth). -/
theorem channel_failures_isolated (env : AlertEnv) (net : Net)
    (chans : List AlertChannel) (cfg : ChannelConfig) (url : String) :
    (channelLoop env net chans = chans.filterMap (channelResult env net))
    ∧ (cfg.email = none → sendEmailAlert env net cfg = false)
    ∧ (cfg.webhook_url = none →
        sendSlackAlert net cfg = false ∧ sendWebhookAlert net cfg = false)
    ∧ (cfg.webhook_url = some url → net url = none →
        sendSlackAlert net cfg = false ∧ sendWebhookAlert net cfg = false)
    ∧ ((∀ u, net u = none) → sendEmailAlert env net cfg = false)
    ∧ (∀ c ∈ chans, channelResult env net c = some false →
        (channelLoop env net chans).all id = false) := by
  refine ⟨channelLoop_eq_filterMap env net chans, ?_, ?_, ?_, ?_, ?_⟩
  · intro h
    unfold sendEmailAlert
    rw [h]
  · intro h
    unfold sendSlackAlert sendWebhookAlert
    rw [h]
    exact ⟨rfl, rfl⟩
  · intro hu hn
    constructor
    · simp [sendSlackAlert, hu, hn]
    · simp [sendWebhookAlert, hu, hn]
  · intro hnet
    unfold sendEmailAlert
    cases cfg.email with
    | none => rfl
    | some _ =>
      by_cases hp : env.email_provider == "resend"
      · rw [if_pos hp]
        unfold sendResendEmail
        cases env.resend_api_key with
        | none => rfl
        | some _ => simp [hnet]
      · rw [if_neg hp]
        unfold sendMailgunEmail
        cases env.mailgun_api_key with
        | none => rfl
        | some _ =>
          cases env.mailgun_domain with
          | none => rfl
          | some d => simp [hnet]
  · intro c hc hres
    rw [channelLoop_eq_filterMap]
    have hmem : false ∈ chans.filterMap (channelResult env net) :=
      List.mem_filterMap.mpr ⟨c, hc, hres⟩
    cases hall : (chans.filterMap (channelResult env net)).all id
    · rfl
    · exact absurd (List.all_eq_true.mp hall false hmem) (by simp)

/-- C8 (witness): with an unreachable network, a config without an email
address fails the email channel; the Slack channel with a configured URL
fails without raising; and the aggregate over the one-channel list is
`False`. -/
theorem channel_failures_isolated_witness :
    sendEmailAlert envResend netDown { email := none, webhook_url := none } =
        false
    ∧ sendSlackAlert netDown webhookOnlyConfig = false
    ∧ (channelLoop envResend netDown [slackChannel]).all id = false :=
  ⟨(channel_failures_isolated envResend netDown []
      { email := none, webhook_url := none } "u").2.1 rfl,
   ((channel_failures_isolated envResend netDown [] webhookOnlyConfig
      "https://hooks.example/u").2.2.2.1 rfl rfl).1,
   (channel_failures_isolated envResend netDown [slackChannel]
      webhookOnlyConfig "u").2.2.2.2.2 slackChannel (by decide) (by decide)⟩

/-- C9 (amended): with a configured webhook URL whose POST returns status
`s`, a Slack delivery succeeds exactly when `s` is *exactly 200* (not any
2xx), while a generic webhook delivery succeeds exactly when
`200 ≤ s < 300`. -/
theorem http_success_criteria (net : Net) (cfg : ChannelConfig)
    (url : String) (s : Int) (hu : cfg.webhook_url = some url)
    (hs : net url = some s) :
    (sendSlackAlert net cfg = true ↔ s = 200)
    ∧ (sendWebhookAlert net cfg = true ↔ 200 ≤ s ∧ s < 300) := by
  constructor
  · simp [sendSlackAlert, hu, hs]
  · simp [sendWebhookAlert, hu, hs]

/-- C9 (witness): a POST answered 200 makes both the Slack and the webhook
delivery succeed. -/
theorem http_success_criteria_witness :
    (sendSlackAlert netOk200 webhookOnlyConfig = true ↔ (200 : Int) = 200)
    ∧ (sendWebhookAlert netOk200 webhookOnlyConfig = true ↔
        (200 ≤ (200 : Int) ∧ (200 : Int) < 300)) :=
  http_success_criteria netOk200 webhookOnlyConfig "https://hooks.example/u"
    200 rfl rfl

/-- C9 (counterexample): status 201 is a 2xx code, yet the Slack delivery
fails (`== 200` in the source), while the same response makes a webhook
delivery succeed — refuting "Slack succeeds iff the POST returns 2xx". -/
theorem slack_2xx_not_success_cex :
    ((200 : Int) ≤ 201 ∧ (201 : Int) < 300)
    ∧ sendSlackAlert netOk201 webhookOnlyConfig = false
    ∧ sendWebhookAlert netOk201 webhookOnlyConfig = true := by
  refine ⟨by decide, rfl, rfl⟩

/-- C10: for an anomaly whose project has at least one active channel but
none of type email, slack or webhook, the loop performs no delivery at all
and `send_alert` returns `Except.ok true` — the AND over an empty outcome
list — indistinguishable from full success. -/
theorem unhandled_channel_types_vacuous_success (env : AlertEnv) (net : Net)
    (db : AlertDb) (aid : Nat) (anomaly : AnomalyRow) (project : ProjectRow)
    (ha : (db.anomalies.filter fun a => a.id == aid).head? = some anomaly)
    (hp : (db.projects.filter fun p => p.id == anomaly.project_id).head? =
      some project)
    (hne : activeChannels db project.id ≠ [])
    (hun : ∀ c ∈ activeChannels db project.id,
      c.type ≠ "email" ∧ c.type ≠ "slack" ∧ c.type ≠ "webhook") :
    channelLoop env net (activeChannels db project.id) = []
    ∧ send_alert env net db aid = Except.ok true := by
  have hloop : channelLoop env net (activeChannels db project.id) = [] := by
    rw [channelLoop_eq_filterMap, List.filterMap_eq_nil_iff]
    intro c hc
    rcases hun c hc with ⟨h1, h2, h3⟩
    unfold channelResult
    rw [if_neg (by simpa using h1), if_neg (by simpa using h2),
      if_neg (by simpa using h3)]
  refine ⟨hloop, ?_⟩
  unfold send_alert
  simp only [ha, hp]
  have hemp : (activeChannels db project.id).isEmpty = false := by
    cases h : (activeChannels db project.id).isEmpty
    · rfl
    · exact absurd (List.isEmpty_iff.mp h) hne
  rw [hemp]
  simp only [Bool.false_eq_true, if_false]
  rw [hloop]
  rfl

/-- C10 (witness): anomaly 5 of project 1 whose only active channel has
type `"sms"`: the dispatch reports success. -/
theorem unhandled_channel_types_witness :
    send_alert envResend netOk200 dbSms 5 = Except.ok true :=
  (unhandled_channel_types_vacuous_success envResend netOk200 dbSms 5
    { id := 5, project_id := 1 } { id := 1, name := "P" } (by decide)
    (by decide) (by decide) (by decide)).2

end ApiSentinel
